import Mathlib

/-!
Verification of the call-session relay in `twilio-client/server.js`.

The relay owns one WebSocket duplex channel per call, dispatches inbound
JSON frames (`setup` / `prompt` / `interrupt`), and for each `prompt`
invokes the Langflow agent over HTTP and writes exactly one outbound
`text` frame back.  We embed the data model (JSON values, frames, the
per-session state) and the relay's functions shallowly, and settle the
specification's claims about them.

Boundaries of the embedding: `JSON.parse` and the axios HTTP call are
platform primitives, so the embedding receives their outcome as a value
(`Option Json` for the parse, `AgentResult` for the HTTP call); the
surrounding JavaScript — optional-chaining extraction, `||` fallback
chains, the switch dispatch, frame construction — is translated directly.
All definitions are total Lean functions, which mirrors the fact that the
handler wraps everything in try/catch and never lets an exception escape.
-/

/-- A JSON value, as produced by `JSON.parse` of an inbound frame or of the
agent's response body. -/
inductive Json where
  | null : Json
  | bool (b : Bool) : Json
  | num (n : Int) : Json
  | str (s : String) : Json
  | arr (elems : List Json) : Json
  | obj (fields : List (String × Json)) : Json

mutual

def Json.decEq : (a b : Json) → Decidable (a = b)
  | .null, .null => .isTrue rfl
  | .bool x, .bool y =>
    if h : x = y then .isTrue (by rw [h]) else .isFalse (fun e => h (Json.bool.inj e))
  | .num x, .num y =>
    if h : x = y then .isTrue (by rw [h]) else .isFalse (fun e => h (Json.num.inj e))
  | .str x, .str y =>
    if h : x = y then .isTrue (by rw [h]) else .isFalse (fun e => h (Json.str.inj e))
  | .arr xs, .arr ys =>
    match Json.decEqList xs ys with
    | .isTrue h => .isTrue (by rw [h])
    | .isFalse h => .isFalse (fun e => h (Json.arr.inj e))
  | .obj xs, .obj ys =>
    match Json.decEqFields xs ys with
    | .isTrue h => .isTrue (by rw [h])
    | .isFalse h => .isFalse (fun e => h (Json.obj.inj e))
  | .null, .bool _ | .null, .num _ | .null, .str _ | .null, .arr _ | .null, .obj _
  | .bool _, .null | .bool _, .num _ | .bool _, .str _ | .bool _, .arr _ | .bool _, .obj _
  | .num _, .null | .num _, .bool _ | .num _, .str _ | .num _, .arr _ | .num _, .obj _
  | .str _, .null | .str _, .bool _ | .str _, .num _ | .str _, .arr _ | .str _, .obj _
  | .arr _, .null | .arr _, .bool _ | .arr _, .num _ | .arr _, .str _ | .arr _, .obj _
  | .obj _, .null | .obj _, .bool _ | .obj _, .num _ | .obj _, .str _ | .obj _, .arr _ =>
    .isFalse (by intro e; exact Json.noConfusion e)

def Json.decEqList : (a b : List Json) → Decidable (a = b)
  | [], [] => .isTrue rfl
  | [], _ :: _ => .isFalse (by intro e; exact List.noConfusion e)
  | _ :: _, [] => .isFalse (by intro e; exact List.noConfusion e)
  | x :: xs, y :: ys =>
    match Json.decEq x y with
    | .isFalse h => .isFalse (fun e => h (List.cons.inj e).1)
    | .isTrue h1 =>
      match Json.decEqList xs ys with
      | .isTrue h2 => .isTrue (by rw [h1, h2])
      | .isFalse h => .isFalse (fun e => h (List.cons.inj e).2)

def Json.decEqFields : (a b : List (String × Json)) → Decidable (a = b)
  | [], [] => .isTrue rfl
  | [], _ :: _ => .isFalse (by intro e; exact List.noConfusion e)
  | _ :: _, [] => .isFalse (by intro e; exact List.noConfusion e)
  | (k, v) :: xs, (l, w) :: ys =>
    if hk : k = l then
      match Json.decEq v w with
      | .isFalse h =>
        .isFalse (fun e => h (congrArg Prod.snd (List.cons.inj e).1))
      | .isTrue hv =>
        match Json.decEqFields xs ys with
        | .isTrue h2 => .isTrue (by rw [hk, hv, h2])
        | .isFalse h => .isFalse (fun e => h (List.cons.inj e).2)
    else
      .isFalse (fun e => hk (congrArg Prod.fst (List.cons.inj e).1))

end

instance : DecidableEq Json := Json.decEq

/-- JavaScript optional property access `v?.k`: a field of an object, else
`undefined` (modelled as `none`); accessing a property of a non-object
primitive also yields `undefined`. -/
def Json.getField : Json → String → Option Json
  | .obj fields, k => fields.lookup k
  | _, _ => none

/-- JavaScript optional index access `v?.[i]`: an array element by position
(indexing an object looks the numeric key up as a string, as JS does). -/
def Json.getIndex : Json → Nat → Option Json
  | .arr elems, i => elems.get? i
  | .obj fields, i => fields.lookup (toString i)
  | _, _ => none

/-- JavaScript truthiness of a JSON value: `null`, `false`, `0` and the
empty string are falsy; every object and array is truthy. -/
def jsTruthy : Json → Bool
  | .null => false
  | .bool b => b
  | .num n => n != 0
  | .str s => s != ""
  | .arr _ => true
  | .obj _ => true

/-- JavaScript `a || b` where `a` may be `undefined` (`none`): the left
value when it is present and truthy, otherwise the right value. -/
def jsOr (a : Option Json) (b : Json) : Json :=
  match a with
  | some v => if jsTruthy v then v else b
  | none => b

/-- The optional chain
`data?.outputs?.[0]?.outputs?.[0]?.results?.message?.text`
from `callLangflowAgent` (server.js line 130). -/
def nestedResultText (data : Json) : Option Json :=
  ((((((data.getField "outputs").bind (fun j => j.getIndex 0)).bind
      (fun j => j.getField "outputs")).bind (fun j => j.getIndex 0)).bind
      (fun j => j.getField "results")).bind (fun j => j.getField "message")).bind
      (fun j => j.getField "text")

/-- The fixed "didn't understand" fallback text (server.js line 132). -/
def didntUnderstandText : String :=
  "I'm sorry, I didn't understand that. Could you please try again?"

/-- The fixed apology fallback returned from the catch branch of
`callLangflowAgent` (server.js line 139). -/
def apologyText : String :=
  "I'm sorry, I'm having trouble processing your request right now. Please try again later."

/-- Response normalization of `callLangflowAgent` (server.js lines 130-132):
the nested result text, `|| response.data?.message ||` the fixed
"didn't understand" string. -/
def extractAgentResponse (data : Json) : Json :=
  jsOr (nestedResultText data)
    (jsOr (data.getField "message") (Json.str didntUnderstandText))

/-- Outcome of the axios HTTP call to the agent endpoint: either it
resolved with a parsed response body, or it rejected (unreachable
endpoint, non-2xx status, timeout — axios rejects in all these cases). -/
inductive AgentResult where
  | ok (data : Json)
  | err
deriving DecidableEq

/-- `callLangflowAgent` (server.js lines 103-141) as a function of the
configured endpoint and the HTTP outcome: with no `LANGFLOW_URL` the
function throws before calling the backend and its own catch turns that
into the apology; an HTTP rejection likewise becomes the apology; a
resolved call is normalized by `extractAgentResponse`.  Totality of this
definition is the "never throws to its caller" property. -/
def callLangflowAgentResult (langflowUrl : Option String) (r : AgentResult) : Json :=
  match langflowUrl with
  | none => Json.str apologyText
  | some _ =>
    match r with
    | .err => Json.str apologyText
    | .ok data => extractAgentResponse data

/-- An outbound frame written on the WebSocket: the relay only ever builds
`{type:"text", token, last, interruptible}` objects (server.js lines 70-75). -/
structure OutboundFrame where
  type : String
  token : Json
  last : Bool
  interruptible : Bool
deriving DecidableEq

/-- The observable state of one call session: the `voicePrompt` values of
the prompts whose agent calls are still outstanding (in acceptance order —
each `prompt` arm of the handler is suspended at its `await`), the frames
written so far (in emission order), and whether the connection has closed.
The source keeps no further per-session data. -/
structure SessionState where
  pending : List (Option Json)
  sent : List OutboundFrame
  closed : Bool
deriving DecidableEq

/-- The session attached to a freshly opened connection. -/
def initialSession : SessionState :=
  { pending := [], sent := [], closed := false }

/-- The synchronous part of the `ws.on('message')` handler (server.js
lines 50-91): `JSON.parse` outcome in (`none` = the parse threw, caught by
the handler's try/catch), then the `switch (message.type)` dispatch.
`setup`, `interrupt` and unknown kinds only log; `prompt` starts an agent
call whose completion is a separate step.  The function is total: no frame
kind can throw out of the handler or close the connection. -/
def dispatchRecv (parsed : Option Json) (s : SessionState) : SessionState :=
  match parsed with
  | none => s
  | some m =>
    match m.getField "type" with
    | some (Json.str t) =>
      if t = "setup" then s
      else if t = "prompt" then
        { s with pending := s.pending ++ [m.getField "voicePrompt"] }
      else if t = "interrupt" then s
      else s
    | _ => s

/-- The frame the `prompt` arm sends once `callLangflowAgent` returns
(server.js lines 70-78). -/
def promptReplyFrame (langflowUrl : Option String) (r : AgentResult) : OutboundFrame :=
  { type := "text"
    token := callLangflowAgentResult langflowUrl r
    last := true
    interruptible := true }

/-- Resumption of the `prompt` arm when the agent call for the `i`-th
outstanding prompt completes: the call leaves the outstanding set and its
reply frame is written — unless the connection has closed meanwhile, in
which case the `ws.send` failure is swallowed by the handler's try/catch
and the late result is discarded. -/
def completeCall (langflowUrl : Option String) (agent : Option Json → AgentResult)
    (s : SessionState) (i : Nat) (h : i < s.pending.length) : SessionState :=
  if s.closed then
    { s with pending := s.pending.eraseIdx i }
  else
    { s with
        pending := s.pending.eraseIdx i
        sent := s.sent ++ [promptReplyFrame langflowUrl (agent (s.pending.get ⟨i, h⟩))] }

/-- One step of a session, parameterised by the configuration (the
`LANGFLOW_URL` value) and by the external agent's behaviour on each
utterance: a frame arrives (its parse outcome is the environment's
choice), an outstanding agent call completes (any outstanding call may
complete next — the handler imposes no order), or the connection closes. -/
inductive Step (langflowUrl : Option String) (agent : Option Json → AgentResult) :
    SessionState → SessionState → Prop where
  | recv (parsed : Option Json) (s : SessionState) (hopen : s.closed = false) :
      Step langflowUrl agent s (dispatchRecv parsed s)
  | complete (s : SessionState) (i : Nat) (h : i < s.pending.length) :
      Step langflowUrl agent s (completeCall langflowUrl agent s i h)
  | close (s : SessionState) :
      Step langflowUrl agent s { s with closed := true }

/-- The attributes of the `<Connect><ConversationRelay>` TwiML element the
`/voice` webhook answers every inbound call with (server.js lines 21-32). -/
structure ConversationRelayConfig where
  url : String
  welcomeGreeting : String
  language : String
deriving DecidableEq

/-- The `/voice` handler (server.js lines 21-32) as a function of the
request's `host` header: it synchronously builds the relay descriptor and
sends it; there is no failing branch. -/
def voiceResponse (host : String) : ConversationRelayConfig :=
  { url := "wss://" ++ host ++ "/websocket"
    welcomeGreeting := "Hello! I'm P, the event MC. How can I help you today?"
    language := "en-US" }

/-- The axios request options — the third argument of `axios.post` — that
`callLangflowAgent` builds (server.js lines 118-127): only `headers` is
set (with `Authorization` present exactly when an API key is configured);
every other option, notably `timeout`, is absent, leaving axios at its
default of no timeout. -/
structure AxiosRequestOptions where
  headers : List (String × String)
  timeout : Option Nat
deriving DecidableEq

/-- The options object passed at server.js line 127: `{ headers }`. -/
def langflowRequestOptions (apiKey : Option String) : AxiosRequestOptions :=
  { headers :=
      [("Content-Type", "application/json")] ++
        (match apiKey with
          | some key => [("Authorization", "Bearer " ++ key)]
          | none => [])
    timeout := none }

/-- Whether the frame's `type` tag is one the switch recognizes. -/
def recognizedKind (m : Json) : Bool :=
  match m.getField "type" with
  | some (Json.str t) => t == "setup" || t == "prompt" || t == "interrupt"
  | _ => false

/-- A ConversationRelay `prompt` frame carrying transcribed speech. -/
def promptMsg (text : String) : Json :=
  Json.obj [("type", Json.str "prompt"), ("voicePrompt", Json.str text)]

/-- A ConversationRelay `setup` frame. -/
def setupMsg : Json :=
  Json.obj [("type", Json.str "setup")]

/-- A concrete configured endpoint, for witnesses. -/
def exampleUrl : Option String :=
  some "http://localhost:7860/api/v1/run/agent"

/-- An agent that always answers with the body `{message:"10:30 AM"}`. -/
def timeAgent : Option Json → AgentResult := fun _ =>
  AgentResult.ok (Json.obj [("message", Json.str "10:30 AM")])

/-- An agent whose reply identifies which utterance it answers: the body
`{message:"reply one"}` for the utterance `"first"`, `{message:"reply two"}`
otherwise. -/
def namedReplyAgent : Option Json → AgentResult := fun u =>
  match u with
  | some (Json.str "first") => AgentResult.ok (Json.obj [("message", Json.str "reply one")])
  | _ => AgentResult.ok (Json.obj [("message", Json.str "reply two")])

/-- A response body populating the nested Langflow result path with `x`. -/
def nestedBody (x : String) : Json :=
  Json.obj [("outputs", Json.arr [Json.obj [("outputs",
    Json.arr [Json.obj [("results", Json.obj [("message",
      Json.obj [("text", Json.str x)])])]])]])]

/-- The session after one `prompt` frame was received on a fresh
connection: its agent call is outstanding. -/
def sessionAfterOnePrompt : SessionState :=
  dispatchRecv (some (promptMsg "What time is the keynote?")) initialSession

/-- The session after a second `prompt` frame arrived while the first
call was still outstanding. -/
def sessionAfterTwoPrompts : SessionState :=
  dispatchRecv (some (promptMsg "Where is lunch served?")) sessionAfterOnePrompt

/-- Trace for the ordering claim: two prompts accepted in order. -/
def orderDemo1 : SessionState :=
  dispatchRecv (some (promptMsg "first")) initialSession

/-- Both agent calls outstanding, acceptance order `"first"`, `"second"`. -/
def orderDemo2 : SessionState :=
  dispatchRecv (some (promptMsg "second")) orderDemo1

/-- The call for the later-accepted `"second"` completes first. -/
def orderDemo3 : SessionState :=
  completeCall exampleUrl namedReplyAgent orderDemo2 1 (by decide)

/-- Then the call for the earlier-accepted `"first"` completes. -/
def orderDemo4 : SessionState :=
  completeCall exampleUrl namedReplyAgent orderDemo3 0 (by decide)

/-- C1: for every inbound `prompt` frame whose Agent Client call succeeds
(the axios call resolved with body `data` and an endpoint is configured),
the session emits exactly one outbound frame — the sent list grows by one
element — of type `text`, whose `token` is the normalized reply
`extractAgentResponse data`, with `last = true` and `interruptible = true`;
the only other state change is that the call leaves the outstanding set. -/
theorem prompt_success_emits_single_text_frame
    (url : String) (agent : Option Json → AgentResult) (s : SessionState)
    (i : Nat) (h : i < s.pending.length) (data : Json)
    (hopen : s.closed = false)
    (hok : agent (s.pending.get ⟨i, h⟩) = AgentResult.ok data) :
    completeCall (some url) agent s i h =
      { s with
          pending := s.pending.eraseIdx i
          sent := s.sent ++
            [{ type := "text", token := extractAgentResponse data,
               last := true, interruptible := true }] } := by
  simp only [List.get_eq_getElem] at hok
  simp [completeCall, hopen, promptReplyFrame, callLangflowAgentResult, hok]

/-- Witness for C1: the keynote question, answered by the concrete agent
body `{message:"10:30 AM"}`. -/
theorem prompt_success_emits_single_text_frame_witness :
    completeCall (some "http://localhost:7860/api/v1/run/agent") timeAgent
        { pending := [some (Json.str "What time is the keynote?")], sent := [], closed := false }
        0 (by decide) =
      { pending := [],
        sent := [{ type := "text",
                   token := extractAgentResponse (Json.obj [("message", Json.str "10:30 AM")]),
                   last := true, interruptible := true }],
        closed := false } :=
  prompt_success_emits_single_text_frame
    "http://localhost:7860/api/v1/run/agent" timeAgent
    { pending := [some (Json.str "What time is the keynote?")], sent := [], closed := false }
    0 (by decide)
    (Json.obj [("message", Json.str "10:30 AM")]) rfl rfl

/-- C2: every failure inside `callLangflowAgent` — missing `LANGFLOW_URL`
configuration, or any axios rejection (unreachable endpoint, non-success
status, timeout) — yields the fixed apology fallback text; the function is
total, so no exception reaches its caller. -/
theorem agent_failures_return_apology (langflowUrl : Option String) (r : AgentResult)
    (h : langflowUrl = none ∨ r = AgentResult.err) :
    callLangflowAgentResult langflowUrl r = Json.str apologyText := by
  rcases h with h | h
  · rw [h]; rfl
  · rw [h]; cases langflowUrl <;> rfl

/-- Witness for C2: a rejected HTTP call on a configured endpoint. -/
theorem agent_failures_return_apology_witness :
    callLangflowAgentResult (some "http://localhost:7860/api/v1/run/agent")
      AgentResult.err = Json.str apologyText :=
  agent_failures_return_apology _ _ (Or.inr rfl)

/-- C3 counterexample: with the empty string at the nested result path,
`callLangflowAgent` does not return that string exactly — the empty string
is falsy in the `||` chain, so the fixed "didn't understand" text is
returned instead, refuting the round-trip claim at `X = ""`. -/
theorem empty_nested_text_breaks_roundtrip :
    extractAgentResponse (nestedBody "") = Json.str didntUnderstandText ∧
    Json.str didntUnderstandText ≠ Json.str "" := by decide

/-- C3 (amended): for every nonempty `X`, a body with `X` at the nested
result path normalizes to `X` exactly; for every nonempty `Y`, a body
`{message: Y}` without the nested path normalizes to `Y`; the empty body
`{}` normalizes to the fixed "didn't understand" text. -/
theorem normalization_fallback_chain (X Y : String) (hX : X ≠ "") (hY : Y ≠ "") :
    extractAgentResponse (nestedBody X) = Json.str X ∧
    extractAgentResponse (Json.obj [("message", Json.str Y)]) = Json.str Y ∧
    extractAgentResponse (Json.obj []) = Json.str didntUnderstandText := by
  refine ⟨?_, ?_, by decide⟩
  · have hn : nestedResultText (nestedBody X) = some (Json.str X) := rfl
    simp [extractAgentResponse, hn, jsOr, jsTruthy, hX]
  · have hn : nestedResultText (Json.obj [("message", Json.str Y)]) = none := rfl
    have hm : (Json.obj [("message", Json.str Y)]).getField "message"
        = some (Json.str Y) := rfl
    simp [extractAgentResponse, hn, hm, jsOr, jsTruthy, hY]

/-- Witness for C3 (amended): concrete nonempty reply texts. -/
theorem normalization_fallback_chain_witness :
    extractAgentResponse (nestedBody "See you at ten.") = Json.str "See you at ten." ∧
    extractAgentResponse (Json.obj [("message", Json.str "10:30 AM")])
      = Json.str "10:30 AM" ∧
    extractAgentResponse (Json.obj []) = Json.str didntUnderstandText :=
  normalization_fallback_chain "See you at ten." "10:30 AM"
    (by decide) (by decide)

/-- C4: an inbound frame that fails to parse as JSON (`none`), or parses
to a value whose `type` tag is not `setup`, `prompt` or `interrupt`, is
dropped: the session state — outstanding calls, sent frames, and the open
connection — is exactly unchanged, and the total handler cannot throw. -/
theorem unknown_frames_are_dropped (s : SessionState) (parsed : Option Json)
    (h : parsed = none ∨ ∃ m, parsed = some m ∧ recognizedKind m = false) :
    dispatchRecv parsed s = s := by
  rcases h with h | ⟨m, hp, hm⟩
  · rw [h]; rfl
  · subst hp
    unfold recognizedKind at hm
    simp only [dispatchRecv]
    split
    · rename_i t heq
      rw [heq] at hm
      simp only [Bool.or_eq_false_iff, beq_eq_false_iff_ne, ne_eq] at hm
      obtain ⟨⟨h1, h2⟩, h3⟩ := hm
      simp [h1, h2, h3]
    · rfl

/-- Witness for C4: a frame with the unrecognized tag `media`, received
on a session with an outstanding call, changes nothing. -/
theorem unknown_frames_are_dropped_witness :
    dispatchRecv (some (Json.obj [("type", Json.str "media")]))
      sessionAfterOnePrompt = sessionAfterOnePrompt :=
  unknown_frames_are_dropped sessionAfterOnePrompt _
    (Or.inr ⟨Json.obj [("type", Json.str "media")], rfl, rfl⟩)

/-- C5 counterexample: from a fresh session, two `prompt` frames received
back to back are two valid steps, after which two Agent Client calls are
outstanding at once — the handler has no `awaiting_reply` guard, so the
"at most one outstanding call" invariant fails on this concrete trace. -/
theorem overlapping_prompts_counterexample :
    Step exampleUrl timeAgent initialSession sessionAfterOnePrompt ∧
    Step exampleUrl timeAgent sessionAfterOnePrompt sessionAfterTwoPrompts ∧
    sessionAfterOnePrompt.pending.length = 1 ∧
    sessionAfterTwoPrompts.pending.length = 2 :=
  ⟨Step.recv (some (promptMsg "What time is the keynote?")) initialSession rfl,
   Step.recv (some (promptMsg "Where is lunch served?")) sessionAfterOnePrompt rfl,
   by decide, by decide⟩

/-- C5 (amended): the handler neither queues nor supersedes — every
`prompt` frame unconditionally starts a fresh Agent Client call, appended
to the outstanding set whatever its current size, so a session can have
arbitrarily many concurrent calls outstanding. -/
theorem prompt_always_spawns_call (s : SessionState) (m : Json)
    (h : m.getField "type" = some (Json.str "prompt")) :
    dispatchRecv (some m) s =
      { s with pending := s.pending ++ [m.getField "voicePrompt"] } := by
  simp only [dispatchRecv]
  rw [h]
  simp

/-- Witness for C5 (amended): a second prompt arriving while one call is
outstanding starts a second concurrent call. -/
theorem prompt_always_spawns_call_witness :
    dispatchRecv (some (promptMsg "Where is lunch served?")) sessionAfterOnePrompt =
      { sessionAfterOnePrompt with pending := sessionAfterOnePrompt.pending ++
          [(promptMsg "Where is lunch served?").getField "voicePrompt"] } :=
  prompt_always_spawns_call sessionAfterOnePrompt
    (promptMsg "Where is lunch served?") rfl

/-- C6 counterexample: utterances `"first"` then `"second"` are accepted
in that order, but the agent call for `"second"` completes first; the
resulting trace emits `"reply two"` before `"reply one"`, so the reply for
the later-accepted utterance overtakes the earlier one's. -/
theorem reply_reordering_counterexample :
    Step exampleUrl namedReplyAgent initialSession orderDemo1 ∧
    Step exampleUrl namedReplyAgent orderDemo1 orderDemo2 ∧
    Step exampleUrl namedReplyAgent orderDemo2 orderDemo3 ∧
    Step exampleUrl namedReplyAgent orderDemo3 orderDemo4 ∧
    orderDemo4.sent =
      [{ type := "text", token := Json.str "reply two",
         last := true, interruptible := true },
       { type := "text", token := Json.str "reply one",
         last := true, interruptible := true }] :=
  ⟨Step.recv (some (promptMsg "first")) initialSession rfl,
   Step.recv (some (promptMsg "second")) orderDemo1 rfl,
   Step.complete orderDemo2 1 (by decide),
   Step.complete orderDemo3 0 (by decide),
   by decide⟩

/-- C6 (amended): replies are emitted in the order the Agent Client calls
complete, not in acceptance order — each completion of an outstanding
call, at any position `i` of the acceptance-ordered set, appends exactly
that call's reply frame at emission time, and no mechanism restores
acceptance order. -/
theorem replies_follow_completion_order (langflowUrl : Option String)
    (agent : Option Json → AgentResult) (s : SessionState) (i : Nat)
    (h : i < s.pending.length) (hopen : s.closed = false) :
    (completeCall langflowUrl agent s i h).sent =
      s.sent ++ [promptReplyFrame langflowUrl (agent (s.pending.get ⟨i, h⟩))] := by
  simp [completeCall, hopen]

/-- Witness for C6 (amended): completing the later-accepted of two
outstanding calls emits that call's reply immediately. -/
theorem replies_follow_completion_order_witness :
    (completeCall exampleUrl namedReplyAgent orderDemo2 1 (by decide)).sent =
      orderDemo2.sent ++
        [promptReplyFrame exampleUrl (namedReplyAgent (some (Json.str "second")))] :=
  replies_follow_completion_order exampleUrl namedReplyAgent orderDemo2 1
    (by decide) rfl

/-- C7: a `setup` frame is dispatched to a pure no-op — any number of
repeated `setup` frames, from any session state, leaves the state (in
particular the sent-frame list) exactly unchanged, so no outbound frame
is ever emitted for `setup`. -/
theorem setup_frames_never_emit (s : SessionState) (m : Json) (n : Nat)
    (h : m.getField "type" = some (Json.str "setup")) :
    (fun t => dispatchRecv (some m) t)^[n] s = s := by
  have hfix : ∀ t : SessionState, dispatchRecv (some m) t = t := by
    intro t
    simp only [dispatchRecv]
    rw [h]
    simp
  induction n with
  | zero => rfl
  | succ k ih => rw [Function.iterate_succ_apply, hfix, ih]

/-- Witness for C7: three consecutive `setup` frames on a fresh session. -/
theorem setup_frames_never_emit_witness :
    (fun t => dispatchRecv (some setupMsg) t)^[3] initialSession = initialSession :=
  setup_frames_never_emit initialSession setupMsg 3 rfl

/-- C8: contrary to the claim, the options object handed to `axios.post`
never carries a `timeout` — whatever the configured API key, the call is
made with axios's default of no timeout, so a hung backend stalls the
session's turn indefinitely. -/
theorem axios_call_has_no_timeout (apiKey : Option String) :
    (langflowRequestOptions apiKey).timeout = none := rfl

/-- C9: for every inbound call with host `h`, the `/voice` webhook's
relay descriptor carries the relay address `wss://<h>/websocket`, the
fixed greeting, and the locale `en-US`; the construction is a total
function of the host, so call setup never fails. -/
theorem voice_webhook_descriptor (host : String) :
    (voiceResponse host).url = "wss://" ++ host ++ "/websocket" ∧
    (voiceResponse host).welcomeGreeting =
      "Hello! I'm P, the event MC. How can I help you today?" ∧
    (voiceResponse host).language = "en-US" :=
  ⟨rfl, rfl, rfl⟩

/-- C10: the `||` fallback chain treats an empty-string reply exactly like
an absent one — whenever the nested result text is the empty string or
absent, and the top-level `message` field is the empty string or absent,
`callLangflowAgent` returns the fixed "didn't understand" text, never the
empty string. -/
theorem empty_reply_treated_as_absent (data : Json)
    (h1 : nestedResultText data = some (Json.str "") ∨ nestedResultText data = none)
    (h2 : data.getField "message" = some (Json.str "") ∨ data.getField "message" = none) :
    extractAgentResponse data = Json.str didntUnderstandText := by
  unfold extractAgentResponse
  rcases h1 with h1 | h1 <;> rcases h2 with h2 | h2 <;> rw [h1, h2] <;> rfl

/-- Witness for C10: a body whose nested result text is present but empty
and which has no `message` field. -/
theorem empty_reply_treated_as_absent_witness :
    extractAgentResponse (nestedBody "") = Json.str didntUnderstandText :=
  empty_reply_treated_as_absent (nestedBody "") (Or.inl rfl) (Or.inr rfl)
